import Mathlib

/-!
Shallow embedding of the mimicus request-matching / response-generation /
proxy-fallback engine (src/src/domain/services and collaborators), with
theorems checking the specification's claims about it.

Conventions of the embedding:
* Python dicts appearing in the engine's data model are modelled as ordered
  association lists with distinct keys (dict iteration order = insertion
  order, lookups by exact key unless the code lowercases).
* Machine integers are `Int`/`Nat` (no overflow is reachable in the source).
* `random.randint(0, 100)` is modelled by an explicit `draw : Nat` parameter
  together with the predicate `validDraw` describing its inclusive range.
* Exceptions are modelled with `Except`; the exception class is part of the
  `Exn` constructor.
-/

/-- Context of an incoming HTTP request
(`src/src/domain/entities/request_context.py`).

The two fields `session_id` and `client_ip` are included here because the
transport builder (`build_request_context` in
`src/src/presentation/api/v1/mocks.py`) passes them to the constructor and
the response/template services read them; the entity file itself declares
neither field — that discrepancy is settled separately (see the theorem
about `requestContextEntityFields`). -/
structure RequestContext where
  request_method : String
  request_path : String
  request_headers : List (String × String) := []
  request_query_params : List (String × String) := []
  request_body : Option String := none
  request_json : Option (List (String × String)) := none
  request_path_params : List (String × String) := []
  session_id : Option String := none
  client_ip : Option String := none
deriving DecidableEq, Repr

/-- Python `str.lower()` (ASCII; all strings the engine compares are ASCII).
Spelled out over the character list so that it reduces in the kernel. -/
def lowerStr (s : String) : String := String.mk (s.data.map Char.toLower)

/-- Python `str.upper()` (ASCII). -/
def upperStr (s : String) : String := String.mk (s.data.map Char.toUpper)

/-- `RequestContext.get_request_header`: case-insensitive header lookup,
first matching key in insertion order wins. -/
def RequestContext.get_request_header (ctx : RequestContext) (name : String) :
    Option String :=
  (ctx.request_headers.find? (fun kv => lowerStr kv.1 = lowerStr name)).map (·.2)

/-- `MatchCriteria` (`src/src/domain/entities/mock_definition.py`). -/
structure MatchCriteria where
  match_method : String
  match_path : String
  match_headers : Option (List (String × String)) := none
  match_query : Option (List (String × String)) := none
  match_body : Option (List (String × String)) := none
  match_content_type : Option String := none
deriving DecidableEq, Repr

/-- A response body: Python `Union[str, Dict]`; dict values are modelled as
string leaves (the only shape the engine's semantics distinguishes is
dict-vs-str, via `isinstance`). -/
inductive Body where
  | strB (s : String)
  | dictB (entries : List (String × String))
deriving DecidableEq, Repr

/-- `ResponseConfig` (`src/src/domain/entities/mock_definition.py`). -/
structure ResponseConfig where
  response_status : Int := 200
  response_headers : List (String × String) := []
  response_body : Body := .strB ""
  response_delay_ms : Int := 0
  is_template : Bool := false
  error_rate : Int := 0
  error_status_code : Int := 500
  error_body : String := ""
deriving DecidableEq, Repr

/-- `MockDefinition` (`src/src/domain/entities/mock_definition.py`). -/
structure MockDefinition where
  mock_id : String
  mock_name : String
  mock_priority : Int := 100
  mock_enabled : Bool := true
  mock_mode : String := "mock"
  mock_match : MatchCriteria := { match_method := "GET", match_path := "/" }
  mock_response : ResponseConfig := {}
  mock_state : Option (List (String × String)) := none
  upstream_url : Option String := none
  timeout_seconds : Int := 10
deriving DecidableEq, Repr

/-- `MockDefinition.is_active`. -/
def MockDefinition.is_active (m : MockDefinition) : Bool := m.mock_enabled

/-- `MockDefinition.get_match_path`. -/
def MockDefinition.get_match_path (m : MockDefinition) : String :=
  m.mock_match.match_path

/-! ### Path-template matching (`MatchingService`)

`_extract_path_params` compiles the template by replacing every `{name}`
(`name` a run of word characters) with the named group `[^/]+`, anchors the
pattern, and fully matches it against the request path.  The embedding
tokenizes the template into literal characters and named groups, then runs a
greedy backtracking matcher — the semantics of the generated regex class
(sequences of literal characters and `[^/]+` groups, anchored at both ends,
greedy with backtracking, as Python's `re` engine executes it).

Scope of the model: the code interpolates the template into the regex
UNESCAPED, so any regex metacharacter among the template's non-placeholder
characters keeps its regex meaning there (a template `/a.c` matches `/abc`),
a surviving `{`/`}` may act as a quantifier, an invalid or duplicated group
name makes `re.compile` raise, and `$` also matches just before one trailing
newline of the request path.  This embedding instead matches every literal
character exactly.  The two semantics coincide precisely on the fragment
carved out by `plainTemplate` (every literal character regex-plain, every
group name a valid ASCII identifier, group names distinct) and on request
paths without a newline; theorems about successful extraction are stated
under those hypotheses. -/

/-- One token of a compiled path pattern: a literal character, or a named
single-segment capturing group `(?P<name>[^/]+)`. -/
inductive Tok where
  | lit (c : Char)
  | grp (name : String)
deriving DecidableEq, Repr

/-- Python `\w` (ASCII part): letters, digits, underscore. -/
def wordChar (c : Char) : Bool := c.isAlphanum || c = '_'

/-- Split a character list into its longest `wordChar` prefix and the rest. -/
def takeWordAux : List Char → (List Char × List Char)
  | [] => ([], [])
  | c :: cs =>
    if wordChar c then
      let p := takeWordAux cs
      (c :: p.1, p.2)
    else ([], c :: cs)

/-- Tokenizer for `re.sub(r"\{(\w+)\}", r"(?P<\1>[^/]+)", template_path)`:
scanning left to right, a `{` immediately followed by a nonempty word run and
`}` becomes a group token; any other character stays literal.  The fuel is
bounded below by the number of produced tokens (each call consumes at least
one character), so `length + 1` never exhausts. -/
def tokenizeB : Nat → List Char → List Tok
  | 0, _ => []
  | _ + 1, [] => []
  | f + 1, '{' :: cs =>
    let p := takeWordAux cs
    match p.1, p.2 with
    | _ :: _, '}' :: r2 => .grp (String.mk p.1) :: tokenizeB f r2
    | _, _ => .lit '{' :: tokenizeB f cs
  | f + 1, c :: cs => .lit c :: tokenizeB f cs

/-- Compile a path template to its token list. -/
def tokenize (tpl : String) : List Tok := tokenizeB (tpl.data.length + 1) tpl.data

/-- State of the backtracking matcher: either matching a token list against a
remaining input, or growing the current `[^/]+` group (`acc` holds the
consumed characters in reverse). -/
inductive PMState where
  | run (ts : List Tok) (s : List Char)
  | growS (n : String) (acc : List Char) (ts : List Tok) (s : List Char)
deriving Repr

/-- One backtracking matcher, greedy like Python's `re`: a group consumes as
many non-`/` characters as possible and gives characters back one at a time
when the continuation fails.  Returns the captured groups in order of
appearance on success (`match.groupdict()`).  The fuel bounds the recursion
depth; `2 * |s| + |ts| + 2` strictly exceeds the depth of every call chain
(each step lowers the measure `2 * |s| + |ts| + phase`). -/
def pmStep : Nat → PMState → Option (List (String × String))
  | 0, _ => none
  | _ + 1, .run [] [] => some []
  | _ + 1, .run [] (_ :: _) => none
  | _ + 1, .run (.lit _ :: _) [] => none
  | f + 1, .run (.lit c :: ts) (x :: xs) =>
    if x = c then pmStep f (.run ts xs) else none
  | _ + 1, .run (.grp _ :: _) [] => none
  | f + 1, .run (.grp n :: ts) (x :: xs) =>
    if x = '/' then none else pmStep f (.growS n [x] ts xs)
  | f + 1, .growS n acc ts s =>
    (match s with
     | x :: xs => if x = '/' then none else pmStep f (.growS n (x :: acc) ts xs)
     | [] => none)
    <|> (pmStep f (.run ts s)).map (fun caps => (n, String.mk acc.reverse) :: caps)

/-- Anchored full match of a compiled pattern against an input. -/
def pmatch (ts : List Tok) (s : List Char) : Option (List (String × String)) :=
  pmStep (2 * s.length + ts.length + 2) (.run ts s)

/-- `MatchingService._extract_path_params`, on the `plainTemplate` fragment
(see the section comment: regex metacharacters in the template and a
trailing-newline request path are outside the model). -/
def extractPathParams (template_path request_path : String) :
    Option (List (String × String)) :=
  pmatch (tokenize template_path) request_path.data

/-- `MatchingService._matches_path`: literal equality first, then template
matching with parameter extraction. -/
def matchesPath (mock_path request_path : String) :
    Bool × List (String × String) :=
  if mock_path = request_path then (true, [])
  else
    match extractPathParams mock_path request_path with
    | some params => (true, params)
    | none => (false, [])

/-- `MatchingService._matches_method`: case-insensitive equality. -/
def matchesMethod (mock_method request_method : String) : Bool :=
  upperStr mock_method = upperStr request_method

/-- `MatchingService._score_match`: priority, plus 1000 when no path
parameters were extracted (literal match), plus 500 when `match_headers` is
truthy (non-`None`, nonempty) and every constraint equals the request's
header looked up case-insensitively. -/
def score_match (mock : MockDefinition) (req : RequestContext)
    (path_params : List (String × String)) : Int :=
  let score := mock.mock_priority
  let score := if path_params.isEmpty then score + 1000 else score
  match mock.mock_match.match_headers with
  | none => score
  | some l =>
    if l.isEmpty then score
    else if l.all (fun kv => req.get_request_header kv.1 == some kv.2) then
      score + 500
    else score

/-- The body of `find_match`'s candidate loop for one definition: `none` when
the enabled/method/path filters reject it, otherwise the candidate triple
(definition, extracted path parameters, score). -/
def candidateOf (req : RequestContext) (mock : MockDefinition) :
    Option (MockDefinition × List (String × String) × Int) :=
  if !mock.is_active then none
  else if !matchesMethod mock.mock_match.match_method req.request_method then none
  else
    let pm := matchesPath mock.get_match_path req.request_path
    if pm.1 then some (mock, pm.2, score_match mock req pm.2) else none

/-- `find_match`'s candidate list, in input order. -/
def survivors (req : RequestContext) (mocks : List MockDefinition) :
    List (MockDefinition × List (String × String) × Int) :=
  mocks.filterMap (candidateOf req)

/-- Python `max(candidates, key=key)` on a nonempty list: left fold that
replaces the current maximum only on a strictly greater key, hence keeps the
first maximal element. -/
def pyMax (key : α → Int) : List α → Option α
  | [] => none
  | x :: xs => some (xs.foldl (fun acc y => if key acc < key y then y else acc) x)

/-- `MatchingService.find_match`. -/
def find_match (req : RequestContext) (mocks : List MockDefinition) :
    Option (MockDefinition × List (String × String)) :=
  (pyMax (fun c => c.2.2) (survivors req mocks)).map (fun c => (c.1, c.2.1))

/-! ### Response generation (`ResponseService`) -/

/-- JSON string literal: quote and escape (backslash and double quote; the
engine's payloads contain no control characters). Models `json.dumps` on a
string. -/
def jsonStrLit (s : String) : String :=
  "\"" ++ String.mk (s.data.foldr (fun c acc =>
    if c = '\\' then '\\' :: '\\' :: acc
    else if c = '\"' then '\\' :: '\"' :: acc
    else c :: acc) []) ++ "\""

/-- `json.dumps` of a string-valued dict, with Python's default separators
`", "` and `": "`. -/
def jsonObjStr (entries : List (String × String)) : String :=
  "\x7b" ++ String.intercalate ", "
    (entries.map (fun kv => jsonStrLit kv.1 ++ ": " ++ jsonStrLit kv.2)) ++ "\x7d"

/-- `ResponseService._prepare_body`: dicts are JSON-serialized, strings pass
through unchanged. -/
def prepare_body : Body → String
  | .dictB d => jsonObjStr d
  | .strB s => s

/-- `ResponseService._prepare_headers`: append a `Content-Type:
application/json` entry when no key equals `content-type` case-insensitively. -/
def prepare_headers (headers : List (String × String)) : List (String × String) :=
  if headers.any (fun kv => lowerStr kv.1 = "content-type") then headers
  else headers ++ [("Content-Type", "application/json")]

/-- Exact-key dict lookup with default (Python `dict.get(k, d)`). -/
def dictGet (l : List (String × String)) (k d : String) : String :=
  ((l.find? (fun kv => kv.1 = k)).map (·.2)).getD d

/-- A FastAPI `Response` as the engine constructs it: `media_type` is `none`
when the constructor argument was not passed. -/
structure Response where
  content : String
  status_code : Int
  headers : List (String × String) := []
  media_type : Option String := none
deriving DecidableEq, Repr

/-- `random.randint(0, 100)` returns an integer in the inclusive range
[0, 100]: 101 possible draws. -/
def validDraw (draw : Nat) : Prop := draw ≤ 100

/-- The error-injection condition of `generate_response`:
`error_rate > 0 and randint(0, 100) < error_rate`. -/
def errorInjected (error_rate : Int) (draw : Nat) : Bool :=
  decide (0 < error_rate) && decide ((draw : Int) < error_rate)

/-- Outcome of the internal Jinja2 render attempt inside
`TemplateService.render_template`'s `try` block (context build, template
compile, render): a rendered string, a `jinja2.TemplateError`, or any other
exception, each carrying `str(e)`. -/
inductive RenderAttempt where
  | ok (s : String)
  | templateError (m : String)
  | otherError (m : String)
deriving DecidableEq, Repr

/-- `TemplateService.render_template`: returns the rendered string, or — on
either exception class — the `json.dumps({"error": ...})` payload; it never
raises (total function into `String`). -/
def render_template : RenderAttempt → String
  | .ok s => s
  | .templateError m => jsonObjStr [("error", "Template error: " ++ m)]
  | .otherError m => jsonObjStr [("error", "Template rendering error: " ++ m)]

/-- `ResponseService.generate_response`.  The service's collaborators and the
request-time nondeterminism are explicit parameters: `rate_limiter_present` /
`allowed` model the optional limiter and its verdict, `draw` the
`random.randint(0, 100)` outcome, `template_service_present` the optional
templating collaborator and `attempt` its internal render outcome.  The
configured delay only suspends and is response-irrelevant. -/
def generate_response (mock_def : MockDefinition)
    (rate_limiter_present allowed : Bool) (draw : Nat)
    (template_service_present : Bool) (attempt : RenderAttempt) : Response :=
  let rc := mock_def.mock_response
  if rate_limiter_present && !allowed then
    { content := "Too Many Requests", status_code := 429,
      headers := [("Content-Type", "text/plain")], media_type := none }
  else if errorInjected rc.error_rate draw then
    { content := rc.error_body, status_code := rc.error_status_code,
      headers := prepare_headers rc.response_headers,
      media_type := some "application/json" }
  else
    let body0 := prepare_body rc.response_body
    let body :=
      if template_service_present && rc.is_template then render_template attempt
      else body0
    let headers := prepare_headers rc.response_headers
    { content := body, status_code := rc.response_status, headers := headers,
      media_type := some (dictGet headers "Content-Type" "application/json") }

/-! ### Rate limiter (`RateLimiterService`)

Timestamps (`time.time()`) are modelled as rationals.  The table is the
`defaultdict(list)` keyed by `"{mock_id}:{client_ip}"`. -/

/-- The timestamp table. -/
abbrev RLTable := List (String × List ℚ)

/-- Read a key from the `defaultdict` (missing key reads as `[]`). -/
def tlookup (t : RLTable) (k : String) : List ℚ :=
  ((t.find? (fun kv => kv.1 = k)).map (·.2)).getD []

/-- Write a key (dict assignment: update in place, or append a new entry). -/
def tset (t : RLTable) (k : String) (v : List ℚ) : RLTable :=
  if t.any (fun kv => kv.1 = k) then
    t.map (fun kv => if kv.1 = k then (k, v) else kv)
  else t ++ [(k, v)]

/-- Delete a key (`del d[k]`, no-op when absent as the code guards with
`in`). -/
def tdel (t : RLTable) (k : String) : RLTable :=
  t.filter (fun kv => kv.1 ≠ k)

/-- `RateLimiterService._get_key`: `"{mock_id}:{ip}"` with the literal
`"unknown"` for an absent client address. -/
def rlKey (mock_id : String) (client_ip : Option String) : String :=
  mock_id ++ ":" ++ client_ip.getD "unknown"

/-- `RateLimiterService.is_allowed`: prune timestamps at or before
`now - 60`, then admit-and-record below `burst`, else admit-and-record below
`limit_per_minute`, else deny leaving only the pruned list recorded.
Returns (verdict, updated table). -/
def is_allowed (t : RLTable) (mock_id : String) (client_ip : Option String)
    (limit_per_minute : Nat := 60) (burst : Nat := 10) (now : ℚ := 0) :
    Bool × RLTable :=
  let key := rlKey mock_id client_ip
  let cutoff := now - 60
  let kept := (tlookup t key).filter (fun ts => cutoff < ts)
  let t1 := tset t key kept
  if kept.length < burst then (true, tset t1 key (kept ++ [now]))
  else if kept.length < limit_per_minute then (true, tset t1 key (kept ++ [now]))
  else (false, t1)

/-- `RateLimiterService.reset`: one key, every key of a mock id, or the whole
table.  (Python tests argument truthiness; the engine's ids and addresses
are nonempty strings, modelled by `Option` presence.) -/
def rlReset (t : RLTable) (mock_id client_ip : Option String) : RLTable :=
  match mock_id, client_ip with
  | some mid, some ip => tdel t (rlKey mid (some ip))
  | some mid, none => t.filter (fun kv => !(mid ++ ":").isPrefixOf kv.1)
  | none, _ => []

/-! ### Proxy coordinator (`ProxyService` and `HTTPClient`) -/

/-- A raised Python exception, as class plus `str(e)` message. -/
inductive Exn where
  | valueError (m : String)
  | timeoutError (m : String)
  | connectionError (m : String)
  | otherExn (cls m : String)
deriving DecidableEq, Repr

/-- `str(e)`. -/
def exnMessage : Exn → String
  | .valueError m => m
  | .timeoutError m => m
  | .connectionError m => m
  | .otherExn _ m => m

/-- What the underlying `httpx` exchange inside `proxy_request`'s `try` block
does: succeed with (status, headers, content), raise an
`httpx.TimeoutException`, or raise any other exception class. -/
inductive UpstreamOutcome where
  | ok (status : Int) (headers : List (String × String)) (content : String)
  | timeout (m : String)
  | raised (cls m : String)
deriving DecidableEq, Repr

/-- `HTTPClient.proxy_request` (the exception classification of its `try`
block, lines 83–86): `httpx.TimeoutException` is re-raised as
`TimeoutError("Upstream request timeout: ...")`, and every other exception
class is re-raised as `ConnectionError("Failed to reach upstream: ...")`. -/
def proxy_request (o : UpstreamOutcome) :
    Except Exn (Int × List (String × String) × String) :=
  match o with
  | .ok status headers content => .ok (status, headers, content)
  | .timeout m => .error (.timeoutError ("Upstream request timeout: " ++ m))
  | .raised _ m => .error (.connectionError ("Failed to reach upstream: " ++ m))

/-- The exception classes caught by `_proxy_with_fallback`'s
`except (TimeoutError, ConnectionError)` clause. -/
def catchesFallback : Exn → Bool
  | .timeoutError _ => true
  | .connectionError _ => true
  | _ => false

/-- `_proxy_with_fallback`'s handling of the forward result: an upstream
response becomes the returned `Response`; a raised exception of one of the
two caught classes delegates to the fallback; any other class propagates. -/
def handleForwardResult (fallback : Response)
    (r : Except Exn (Int × List (String × String) × String)) :
    Except Exn Response :=
  match r with
  | .ok shc => .ok { content := shc.2.2, status_code := shc.1,
                     headers := shc.2.1, media_type := none }
  | .error e => if catchesFallback e then .ok fallback else .error e

/-- `ProxyService._proxy_with_fallback` with a present response service whose
`generate_response` result is the `fallback` parameter. -/
def proxyWithFallback (mock_def : MockDefinition) (fallback : Response)
    (o : UpstreamOutcome) : Except Exn Response :=
  match mock_def.upstream_url with
  | none => .ok fallback
  | some _ => handleForwardResult fallback (proxy_request o)

/-- `ProxyService._pure_proxy`.  The second component records whether the
upstream was contacted. -/
def pureProxy (mock_def : MockDefinition) (o : UpstreamOutcome) :
    Except Exn Response × Bool :=
  match mock_def.upstream_url with
  | none =>
    (.ok { content := "\x7b\"error\": \"Upstream URL not configured\"\x7d",
           status_code := 500, headers := [],
           media_type := some "application/json" }, false)
  | some _ =>
    match proxy_request o with
    | .ok shc =>
      (.ok { content := shc.2.2, status_code := shc.1, headers := shc.2.1,
             media_type := none }, true)
    | .error e =>
      (.ok { content := "\x7b\"error\": \"Proxy request failed: " ++
               exnMessage e ++ "\"\x7d",
             status_code := 500, headers := [],
             media_type := some "application/json" }, true)

/-- `ProxyService._passthrough`: raises `ValueError` when `upstream_url` is
absent; otherwise forwards and propagates any failure. -/
def passthrough (mock_def : MockDefinition) (o : UpstreamOutcome) :
    Except Exn Response × Bool :=
  match mock_def.upstream_url with
  | none =>
    (.error (.valueError "Upstream URL not configured for passthrough mode"),
     false)
  | some _ =>
    match proxy_request o with
    | .ok shc =>
      (.ok { content := shc.2.2, status_code := shc.1, headers := shc.2.1,
             media_type := none }, true)
    | .error e => (.error e, true)

/-- `ProxyService.handle_proxy_request`: dispatch on the mode string (with a
present response service whose result is `fallback`). -/
def handleProxyRequest (mock_def : MockDefinition) (fallback : Response)
    (o : UpstreamOutcome) : Except Exn Response × Bool :=
  if mock_def.mock_mode = "proxy" then pureProxy mock_def o
  else if mock_def.mock_mode = "proxy-with-fallback" then
    (proxyWithFallback mock_def fallback o, mock_def.upstream_url.isSome)
  else if mock_def.mock_mode = "passthrough" then passthrough mock_def o
  else (.ok fallback, false)

/-! ### The RequestContext entity versus its callers (claim about session id
and client address) -/

/-- The fields declared by the `RequestContext` dataclass in
`src/src/domain/entities/request_context.py` (its `__init__` accepts exactly
these keyword arguments). -/
def requestContextEntityFields : List String :=
  ["request_method", "request_path", "request_headers",
   "request_query_params", "request_body", "request_json",
   "request_path_params"]

/-- The keyword arguments `build_request_context`
(`src/src/presentation/api/v1/mocks.py`) passes to the `RequestContext`
constructor. -/
def buildRequestContextKwargs : List String :=
  ["request_method", "request_path", "request_headers",
   "request_query_params", "request_body", "request_json",
   "request_path_params", "session_id", "client_ip"]

/-- Attributes of the request context read by the downstream stages:
`ResponseService.generate_response` reads `client_ip`;
`TemplateService._build_context` reads `session_id` and `client_ip`. -/
def downstreamContextReads : List String := ["client_ip", "session_id"]

/-! ### Matching-soundness specification for the path matcher -/

/-- What a successful anchored match of a compiled pattern means: the input
decomposes into the pattern's literal characters and, for each group token in
order, a nonempty run of non-`/` characters captured under the group's name. -/
def capsSpec : List Tok → List Char → List (String × String) → Prop
  | [], s, caps => s = [] ∧ caps = []
  | .lit c :: ts, s, caps => ∃ s', s = c :: s' ∧ capsSpec ts s' caps
  | .grp n :: ts, s, caps =>
    ∃ v s' caps', v ≠ [] ∧ (∀ ch ∈ v, ch ≠ '/') ∧ s = v ++ s' ∧
      caps = (n, String.mk v) :: caps' ∧ capsSpec ts s' caps'

/-- A character that Python's `re` treats as a plain literal outside
character classes (not one of `. ^ $ * + ? ( ) [ ] \ |` nor a brace, which
could quantify or open a placeholder). -/
def plainChar (c : Char) : Bool :=
  !(c ∈ ['.', '^', '$', '*', '+', '?', '(', ')', '[', ']', '\\', '|',
         '{', '}'])

/-- A valid ASCII Python identifier, as required of a `(?P<name>...)` group
name (an invalid name makes `re.compile` raise `re.error`). -/
def validGroupName (n : String) : Bool :=
  match n.data with
  | [] => false
  | c :: cs => (c.isAlpha || c = '_') && cs.all wordChar

/-- A token on which the generated regex behaves exactly like this
embedding: a regex-plain literal character, or a group with a valid name. -/
def plainTok : Tok → Bool
  | .lit c => plainChar c
  | .grp n => validGroupName n

/-- The group names of a compiled pattern, in order of appearance. -/
def groupNames (ts : List Tok) : List String :=
  ts.filterMap (fun t => match t with | .grp n => some n | _ => none)

/-- The template fragment on which the code's unescaped-regex compilation
has exactly the literal-plus-`[^/]+`-groups semantics of this embedding:
every token is plain and the group names are distinct (a duplicated name
makes `re.compile` raise `re.error`). -/
def plainTemplate (tpl : String) : Prop :=
  (∀ t ∈ tokenize tpl, plainTok t = true) ∧ (groupNames (tokenize tpl)).Nodup

/-! ### Concrete instances used by individual claims -/

/-- A GET request to a literal path, no headers. -/
def exReqPlain : RequestContext :=
  { request_method := "GET", request_path := "/api/x" }

/-- Enabled mock, literal path `/api/x`, priority 10, no header constraints. -/
def exMockP10 : MockDefinition :=
  { mock_id := "m10", mock_name := "low",
    mock_priority := 10,
    mock_match := { match_method := "GET", match_path := "/api/x" } }

/-- Enabled mock, literal path `/api/x`, priority 100, no header constraints. -/
def exMockP100 : MockDefinition :=
  { mock_id := "m100", mock_name := "high",
    mock_priority := 100,
    mock_match := { match_method := "GET", match_path := "/api/x" } }

/-- Enabled mock whose header constraint `X-Api-Key: secret` the request
`exReqPlain` (which sends no headers) does not satisfy. -/
def exMockHdr : MockDefinition :=
  { mock_id := "mh", mock_name := "hdr",
    mock_match := { match_method := "GET", match_path := "/api/x",
                    match_headers := some [("X-Api-Key", "secret")] } }

/-- First of two identically-scored mocks (tie-breaking example). -/
def exMockTieA : MockDefinition :=
  { mock_id := "tieA", mock_name := "tieA",
    mock_match := { match_method := "GET", match_path := "/api/x" } }

/-- Second of two identically-scored mocks (tie-breaking example). -/
def exMockTieB : MockDefinition :=
  { mock_id := "tieB", mock_name := "tieB",
    mock_match := { match_method := "GET", match_path := "/api/x" } }

/-- Mock configured with `error_rate = 100`, normal body `"OK"` / status 200,
error body `"ERR"` / status 500. -/
def exMockErr100 : MockDefinition :=
  { mock_id := "err", mock_name := "err",
    mock_response := { response_status := 200, response_body := .strB "OK",
                       error_rate := 100, error_status_code := 500,
                       error_body := "ERR" } }

/-- Mock with a template body and status 201 (render-failure example). -/
def exMockTpl : MockDefinition :=
  { mock_id := "tpl", mock_name := "tpl",
    mock_response := { response_status := 201, is_template := true,
                       response_body := .strB "x" } }

/-- Proxy-with-fallback mock with a configured upstream. -/
def exMockPwf : MockDefinition :=
  { mock_id := "pwf", mock_name := "pwf",
    mock_mode := "proxy-with-fallback", upstream_url := some "http://up" }

/-- The response the Response Generator would produce as fallback. -/
def exFallback : Response := { content := "FB", status_code := 201 }

/-- Proxy-mode mock with no upstream configured. -/
def exMockProxyNoUp : MockDefinition :=
  { mock_id := "px", mock_name := "px", mock_mode := "proxy" }

/-- Passthrough-mode mock with no upstream configured. -/
def exMockPassNoUp : MockDefinition :=
  { mock_id := "pt", mock_name := "pt", mock_mode := "passthrough" }

/-! ### Helper lemmas -/

/-- Specification of Python's `max` fold: the running maximum only moves on a
strict increase, so the result dominates the accumulator and every element,
and when it differs from the accumulator it occurs in the list with every
earlier element strictly below it. -/
theorem pyFold_spec {α : Type} (key : α → Int) :
    ∀ (l : List α) (acc r : α),
      r = l.foldl (fun a y => if key a < key y then y else a) acc →
      key acc ≤ key r ∧ (∀ y ∈ l, key y ≤ key r) ∧
      (r = acc ∨ ∃ l₁ l₂, l = l₁ ++ r :: l₂ ∧ key acc < key r ∧
        ∀ y ∈ l₁, key y < key r) := by
  intro l
  induction l with
  | nil =>
    intro acc r hr
    simp only [List.foldl_nil] at hr
    subst hr
    simp
  | cons x xs ih =>
    intro acc r hr
    simp only [List.foldl_cons] at hr
    by_cases h : key acc < key x
    · rw [if_pos h] at hr
      obtain ⟨h1, h2, h3⟩ := ih x r hr
      refine ⟨le_trans (le_of_lt h) h1, ?_, ?_⟩
      · intro y hy
        rcases List.mem_cons.mp hy with rfl | hy'
        · exact h1
        · exact h2 y hy'
      · rcases h3 with rfl | ⟨l₁, l₂, hl, hlt, hall⟩
        · exact Or.inr ⟨[], xs, rfl, h, by simp⟩
        · refine Or.inr ⟨x :: l₁, l₂, by rw [hl]; rfl, lt_trans h hlt, ?_⟩
          intro y hy
          rcases List.mem_cons.mp hy with rfl | hy'
          · exact hlt
          · exact hall y hy'
    · rw [if_neg h] at hr
      push_neg at h
      obtain ⟨h1, h2, h3⟩ := ih acc r hr
      refine ⟨h1, ?_, ?_⟩
      · intro y hy
        rcases List.mem_cons.mp hy with rfl | hy'
        · exact le_trans h h1
        · exact h2 y hy'
      · rcases h3 with heq | ⟨l₁, l₂, hl, hlt, hall⟩
        · exact Or.inl heq
        · refine Or.inr ⟨x :: l₁, l₂, by rw [hl]; rfl, hlt, ?_⟩
          intro y hy
          rcases List.mem_cons.mp hy with rfl | hy'
          · exact lt_of_le_of_lt h hlt
          · exact hall y hy'

/-- Python's `max(l, key=...)` returns the first element attaining the
maximal key: everything before it is strictly smaller, everything in the
list is at most it. -/
theorem pyMax_spec {α : Type} (key : α → Int) (l : List α) (x : α)
    (h : pyMax key l = some x) :
    ∃ l₁ l₂, l = l₁ ++ x :: l₂ ∧ (∀ y ∈ l₁, key y < key x) ∧
      ∀ y ∈ l, key y ≤ key x := by
  cases l with
  | nil => simp [pyMax] at h
  | cons z zs =>
    simp only [pyMax, Option.some.injEq] at h
    obtain ⟨h1, h2, h3⟩ := pyFold_spec key zs z x h.symm
    rcases h3 with rfl | ⟨l₁, l₂, hl, hlt, hall⟩
    · refine ⟨[], zs, rfl, by simp, ?_⟩
      intro y hy
      rcases List.mem_cons.mp hy with rfl | hy'
      · exact le_refl _
      · exact h2 y hy'
    · refine ⟨z :: l₁, l₂, by rw [hl]; rfl, ?_, ?_⟩
      · intro y hy
        rcases List.mem_cons.mp hy with rfl | hy'
        · exact hlt
        · exact hall y hy'
      · intro y hy
        rcases List.mem_cons.mp hy with rfl | hy'
        · exact le_of_lt hlt
        · exact h2 y hy'

/-- Soundness of the backtracking matcher at every fuel: a successful match
satisfies `capsSpec` (run states), respectively the grow-state analogue where
the pending group finishes with some further non-`/` extension. -/
theorem pmStep_sound :
    ∀ (f : Nat) (st : PMState) (caps : List (String × String)),
      pmStep f st = some caps →
      (match st with
       | .run ts s => capsSpec ts s caps
       | .growS n acc ts s =>
         ∃ ext s' caps', (∀ ch ∈ ext, ch ≠ '/') ∧ s = ext ++ s' ∧
           caps = (n, String.mk (acc.reverse ++ ext)) :: caps' ∧
           capsSpec ts s' caps') := by
  intro f
  induction f with
  | zero => intro st caps h; exact Option.noConfusion h
  | succ f ih =>
    intro st caps h
    cases st with
    | run ts s =>
      cases ts with
      | nil =>
        cases s with
        | nil => exact ⟨rfl, (Option.some.inj h).symm⟩
        | cons x xs => exact Option.noConfusion h
      | cons t ts' =>
        cases t with
        | lit c =>
          cases s with
          | nil => exact Option.noConfusion h
          | cons x xs =>
            simp only [pmStep] at h
            by_cases hx : x = c
            · rw [if_pos hx] at h
              exact ⟨xs, by rw [hx], ih (.run ts' xs) caps h⟩
            · rw [if_neg hx] at h
              exact Option.noConfusion h
        | grp n =>
          cases s with
          | nil => exact Option.noConfusion h
          | cons x xs =>
            simp only [pmStep] at h
            by_cases hx : x = '/'
            · rw [if_pos hx] at h
              exact Option.noConfusion h
            · rw [if_neg hx] at h
              obtain ⟨ext, s', caps', hns, hs, hcap, hspec⟩ :=
                ih (.growS n [x] ts' xs) caps h
              refine ⟨x :: ext, s', caps', by simp, ?_, ?_, ?_, hspec⟩
              · intro ch hch
                rcases List.mem_cons.mp hch with rfl | hch'
                · exact hx
                · exact hns ch hch'
              · rw [hs]; rfl
              · simpa using hcap
    | growS n acc ts s =>
      cases s with
      | nil =>
        simp only [pmStep, Option.none_orElse] at h
        cases hB : pmStep f (.run ts []) with
        | none => rw [hB] at h; exact Option.noConfusion h
        | some caps0 =>
          rw [hB] at h
          have hcaps : (n, String.mk acc.reverse) :: caps0 = caps := by
            simpa using h
          refine ⟨[], [], caps0, by simp, rfl, ?_, ih (.run ts []) caps0 hB⟩
          rw [← hcaps]; simp
      | cons x xs =>
        simp only [pmStep] at h
        by_cases hx : x = '/'
        · rw [if_pos hx] at h
          simp only [Option.none_orElse] at h
          cases hB : pmStep f (.run ts (x :: xs)) with
          | none => rw [hB] at h; exact Option.noConfusion h
          | some caps0 =>
            rw [hB] at h
            have hcaps : (n, String.mk acc.reverse) :: caps0 = caps := by
              simpa using h
            refine ⟨[], x :: xs, caps0, by simp, rfl, ?_,
              ih (.run ts (x :: xs)) caps0 hB⟩
            rw [← hcaps]; simp
        · rw [if_neg hx] at h
          cases hA : pmStep f (.growS n (x :: acc) ts xs) with
          | some capsA =>
            rw [hA] at h
            have hcaps : capsA = caps := by simpa using h
            obtain ⟨ext, s', caps', hns, hs, hcap, hspec⟩ :=
              ih (.growS n (x :: acc) ts xs) capsA hA
            refine ⟨x :: ext, s', caps', ?_, ?_, ?_, hspec⟩
            · intro ch hch
              rcases List.mem_cons.mp hch with rfl | hch'
              · exact hx
              · exact hns ch hch'
            · rw [hs]; rfl
            · rw [← hcaps, hcap]; simp
          | none =>
            rw [hA] at h
            simp only [Option.none_orElse] at h
            cases hB : pmStep f (.run ts (x :: xs)) with
            | none => rw [hB] at h; exact Option.noConfusion h
            | some caps0 =>
              rw [hB] at h
              have hcaps : (n, String.mk acc.reverse) :: caps0 = caps := by
                simpa using h
              refine ⟨[], x :: xs, caps0, by simp, rfl, ?_,
                ih (.run ts (x :: xs)) caps0 hB⟩
              rw [← hcaps]; simp

/-- Reading back the key just written into the timestamp table. -/
theorem tlookup_tset (t : RLTable) (k : String) (v : List ℚ) :
    tlookup (tset t k v) k = v := by
  unfold tlookup tset
  by_cases h : t.any (fun kv => kv.1 = k)
  · rw [if_pos h]
    induction t with
    | nil => simp at h
    | cons kv t' ih =>
      by_cases hk : kv.1 = k
      · simp [List.find?, hk]
      · simp only [List.map_cons, if_neg hk]
        simp only [List.any_cons] at h
        rcases Bool.or_eq_true_iff.mp h with h1 | h2
        · exact absurd (of_decide_eq_true h1) hk
        · have := ih h2
          simp only [List.find?]
          rw [decide_eq_false hk]
          exact this
  · rw [if_neg h]
    induction t with
    | nil => simp [List.find?]
    | cons kv t' ih =>
      simp only [List.any_cons, Bool.or_eq_true_iff, not_or] at h
      obtain ⟨h1, h2⟩ := h
      simp only [List.cons_append, List.find?]
      rw [decide_eq_false (fun he => h1 (decide_eq_true he))]
      exact ih h2

/-! ### Claim theorems -/

/-- C1: the claim says `generate_response` draws a uniform integer in
[0, 100) and with `error_rate = 100` always returns the configured error
status/body.  The code draws `random.randint(0, 100)`, whose range is the
inclusive [0, 100]: the draw 100 is valid, does not satisfy `100 < 100`, and
the response is the normal configured one (status 200, body `"OK"`), not the
configured error (status 500, body `"ERR"`) — evaluating the embedded code at
the failing input. -/
theorem error_injection_draw_100_escapes :
    validDraw 100 ∧ errorInjected 100 100 = false ∧
    generate_response exMockErr100 true true 100 false (.ok "") =
      { content := "OK", status_code := 200,
        headers := [("Content-Type", "application/json")],
        media_type := some "application/json" } ∧
    exMockErr100.mock_response.error_rate = 100 ∧
    exMockErr100.mock_response.error_status_code = 500 ∧
    exMockErr100.mock_response.error_body = "ERR" :=
  ⟨Nat.le_refl 100, by decide, by rfl, by decide, by decide, by decide⟩

/-- The parts of the error-injection claim that do hold on the code: with
`error_rate = 0` no draw triggers the error, and with `error_rate = 100`
every draw in [0, 99] does. -/
theorem error_injection_boundary_cases :
    (∀ draw : Nat, validDraw draw → errorInjected 0 draw = false) ∧
    (∀ draw : Nat, draw ≤ 99 → errorInjected 100 draw = true) := by
  constructor
  · intro draw _
    simp [errorInjected]
  · intro draw h
    simp only [errorInjected]
    refine Bool.and_eq_true_iff.mpr ⟨by decide, ?_⟩
    simp
    omega

/-- C2: `find_match` returns a candidate surviving the enabled/method/path
filters whose score (priority, plus 1000 on a parameterless path match, plus
500 when the nonempty header constraints are all satisfied) is maximal among
all surviving candidates; in particular, of two enabled definitions with
identical literal method+path and no header constraints, priorities 10 and
100, it returns the priority-100 one (in either input order). -/
theorem find_match_selects_max_score :
    (∀ req mocks m p, find_match req mocks = some (m, p) →
       ∃ s, (m, p, s) ∈ survivors req mocks ∧
         ∀ c ∈ survivors req mocks, c.2.2 ≤ s) ∧
    (∀ mock req p, score_match mock req p =
       mock.mock_priority + (if p.isEmpty then 1000 else 0) +
       (if (match mock.mock_match.match_headers with
            | none => false
            | some l => !l.isEmpty &&
                l.all (fun kv => req.get_request_header kv.1 == some kv.2)) then
          (500 : Int)
        else 0)) ∧
    find_match exReqPlain [exMockP10, exMockP100] = some (exMockP100, []) ∧
    find_match exReqPlain [exMockP100, exMockP10] = some (exMockP100, []) := by
  refine ⟨?_, ?_, by decide, by decide⟩
  · intro req mocks m p h
    unfold find_match at h
    cases e : pyMax (fun c => c.2.2) (survivors req mocks) with
    | none => rw [e] at h; exact Option.noConfusion h
    | some c =>
      rw [e] at h
      have h' : (c.1, c.2.1) = (m, p) := Option.some.inj h
      obtain ⟨l₁, l₂, hl, _, hle⟩ := pyMax_spec (fun c => c.2.2) _ c e
      refine ⟨c.2.2, ?_, ?_⟩
      · have hc : (m, p, c.2.2) = c := by
          have h1 : c.1 = m := congrArg Prod.fst h'
          have h2 : c.2.1 = p := congrArg Prod.snd h'
          cases c with
          | mk c1 c2 =>
            cases c2 with
            | mk c21 c22 =>
              simp_all
        rw [hc, hl]
        exact List.mem_append_right _ (List.mem_cons_self _ _)
      · exact hle
  · intro mock req p
    unfold score_match
    cases hm : mock.mock_match.match_headers with
    | none =>
      by_cases hp : p.isEmpty <;> simp [hp]
    | some l =>
      by_cases he : l.isEmpty
      · by_cases hp : p.isEmpty <;> simp [he, hp]
      · by_cases ha : l.all (fun kv => req.get_request_header kv.1 == some kv.2) <;>
          by_cases hp : p.isEmpty <;> simp [he, ha, hp]

/-- Witness for `find_match_selects_max_score`: its maximality statement
instantiated at the two-priorities example. -/
theorem find_match_selects_max_score_witness :
    ∃ s, (exMockP100, ([] : List (String × String)), s)
        ∈ survivors exReqPlain [exMockP10, exMockP100] ∧
      ∀ c ∈ survivors exReqPlain [exMockP10, exMockP100], c.2.2 ≤ s :=
  find_match_selects_max_score.1 exReqPlain [exMockP10, exMockP100]
    exMockP100 [] (by decide)

/-- C3 counterexample: an exception of a class other than timeout/connection
(here a `ValueError`) raised by the underlying exchange while forwarding does
NOT propagate uncaught — `HTTPClient.proxy_request` re-raises it as
`ConnectionError`, so `_proxy_with_fallback` delegates to the Response
Generator.  The claim's assertion that only the two named failure classes of
the upstream call cause delegation, anything else propagating, is therefore
false at this input. -/
theorem forwarding_other_exception_still_falls_back :
    proxyWithFallback exMockPwf exFallback (.raised "ValueError" "boom") =
      .ok exFallback ∧
    catchesFallback (.otherExn "ValueError" "boom") = false :=
  ⟨by rfl, by decide⟩

/-- C3 amended: the `except` clause of `_proxy_with_fallback` catches exactly
the classes `TimeoutError` and `ConnectionError` (any other class reaching it
propagates uncaught), but the HTTP client classifies every exception raised
during the forward into those two classes, so every failing upstream call —
whatever the underlying exception class — causes delegation to the Response
Generator; with no upstream configured the Response Generator is used
directly. -/
theorem fallback_catches_exactly_timeout_connection :
    (∀ (mock_def : MockDefinition) (fb : Response) (u : String),
       mock_def.upstream_url = some u →
       (∀ m, proxyWithFallback mock_def fb (.timeout m) = .ok fb) ∧
       (∀ cls m, proxyWithFallback mock_def fb (.raised cls m) = .ok fb)) ∧
    (∀ (fb : Response) (e : Exn), catchesFallback e = false →
       handleForwardResult fb (.error e) = .error e) ∧
    (∀ (mock_def : MockDefinition) (fb : Response) (o : UpstreamOutcome),
       mock_def.upstream_url = none → proxyWithFallback mock_def fb o = .ok fb) := by
  refine ⟨?_, ?_, ?_⟩
  · intro mock_def fb u hu
    constructor
    · intro m
      unfold proxyWithFallback
      rw [hu]
      rfl
    · intro cls m
      unfold proxyWithFallback
      rw [hu]
      rfl
  · intro fb e he
    simp [handleForwardResult, he]
  · intro mock_def fb o hu
    unfold proxyWithFallback
    rw [hu]

/-- Witness for `fallback_catches_exactly_timeout_connection` at concrete
inputs: a timeout falls back; an uncaught-class error propagates from the
forward-result handler. -/
theorem fallback_catches_exactly_timeout_connection_witness :
    proxyWithFallback exMockPwf exFallback (.timeout "t") = .ok exFallback ∧
    handleForwardResult exFallback (.error (.valueError "v")) =
      .error (.valueError "v") :=
  ⟨(fallback_catches_exactly_timeout_connection.1 exMockPwf exFallback
      "http://up" (by decide)).1 "t",
   fallback_catches_exactly_timeout_connection.2.1 exFallback
     (.valueError "v") (by decide)⟩

/-- C4: `render_template` is total (it returns a string, never raises — both
exception classes of the `try` block are caught) and turns a render failure
into the JSON payload `{"error": "<message>"}`; and whenever the rate-limit
and error-injection stages do not fire, `generate_response` builds the
response with the originally configured status code, whatever the template
render attempt produced. -/
theorem render_failure_yields_json_error_and_keeps_status :
    (∀ m, render_template (.templateError m) =
       jsonObjStr [("error", "Template error: " ++ m)]) ∧
    (∀ m, render_template (.otherError m) =
       jsonObjStr [("error", "Template rendering error: " ++ m)]) ∧
    (∀ (mock_def : MockDefinition) (rlp allowed : Bool) (draw : Nat)
       (tsp : Bool) (attempt : RenderAttempt),
       (rlp && !allowed) = false →
       errorInjected mock_def.mock_response.error_rate draw = false →
       (generate_response mock_def rlp allowed draw tsp attempt).status_code =
         mock_def.mock_response.response_status) := by
  refine ⟨fun m => rfl, fun m => rfl, ?_⟩
  intro mock_def rlp allowed draw tsp attempt h1 h2
  simp [generate_response, h1, h2]

/-- Witness for `render_failure_yields_json_error_and_keeps_status`: the
status-preservation statement at a concrete template mock whose render
attempt failed. -/
theorem render_failure_keeps_status_witness :
    (generate_response exMockTpl false true 0 true
        (.templateError "boom")).status_code =
      exMockTpl.mock_response.response_status :=
  render_failure_yields_json_error_and_keeps_status.2.2 exMockTpl false true 0
    true (.templateError "boom") (by decide) (by decide)

/-- C5: `is_allowed` prunes the key's recorded timestamps to those newer than
`now - 60`, admits exactly when the pruned count is below `burst` or below
`limit_per_minute`, records the call exactly when admitting; and in the
concrete scenario with `burst = 5`, `limit_per_minute = 5`, six calls within
60 seconds on one key, the sixth is denied and, after `reset` for that key,
the next call is allowed. -/
theorem rate_limiter_window_burst_limit_reset :
    (∀ (t : RLTable) (mid : String) (ip : Option String)
       (limit burst : Nat) (now : ℚ),
       (((is_allowed t mid ip limit burst now).1 = true ↔
          ((tlookup t (rlKey mid ip)).filter (fun ts => now - 60 < ts)).length < burst ∨
          ((tlookup t (rlKey mid ip)).filter (fun ts => now - 60 < ts)).length < limit) ∧
        tlookup (is_allowed t mid ip limit burst now).2 (rlKey mid ip) =
          (if ((tlookup t (rlKey mid ip)).filter (fun ts => now - 60 < ts)).length < burst ∨
              ((tlookup t (rlKey mid ip)).filter (fun ts => now - 60 < ts)).length < limit then
             ((tlookup t (rlKey mid ip)).filter (fun ts => now - 60 < ts)) ++ [now]
           else (tlookup t (rlKey mid ip)).filter (fun ts => now - 60 < ts)))) ∧
    (let s1 := is_allowed [] "m" (some "1.2.3.4") 5 5 0
     let s2 := is_allowed s1.2 "m" (some "1.2.3.4") 5 5 1
     let s3 := is_allowed s2.2 "m" (some "1.2.3.4") 5 5 2
     let s4 := is_allowed s3.2 "m" (some "1.2.3.4") 5 5 3
     let s5 := is_allowed s4.2 "m" (some "1.2.3.4") 5 5 4
     let s6 := is_allowed s5.2 "m" (some "1.2.3.4") 5 5 5
     s1.1 = true ∧ s2.1 = true ∧ s3.1 = true ∧ s4.1 = true ∧ s5.1 = true ∧
     s6.1 = false ∧
     (is_allowed (rlReset s6.2 (some "m") (some "1.2.3.4"))
        "m" (some "1.2.3.4") 5 5 6).1 = true) := by
  constructor
  · intro t mid ip limit burst now
    unfold is_allowed
    by_cases hb :
        ((tlookup t (rlKey mid ip)).filter (fun ts => now - 60 < ts)).length < burst
    · simp only [if_pos hb]
      constructor
      · simp [hb]
      · simp [tlookup_tset, hb]
    · simp only [if_neg hb]
      by_cases hl :
          ((tlookup t (rlKey mid ip)).filter (fun ts => now - 60 < ts)).length < limit
      · simp only [if_pos hl]
        constructor
        · simp [hl]
        · simp [tlookup_tset, hb, hl]
      · simp only [if_neg hl]
        constructor
        · simp [hb, hl]
        · simp [tlookup_tset, hb, hl]
  · norm_num [is_allowed, tlookup, tset, tdel, rlKey, rlReset, List.filter,
      List.find?]

/-- C6: path matching tries literal string equality first (a template always
matches itself with no extracted parameters — in the code this branch runs
before any regex is built, so it holds for every template), the template
`/api/users/{id}` matches `/api/users/123` yielding `id = 123` and rejects
`/api/users/123/extra`, and — on the `plainTemplate` fragment and
newline-free request paths, where the code's unescaped-regex compilation
coincides with this embedding — every successful parameter extraction
satisfies `capsSpec`: the request path is the template's literals with each
`{name}` placeholder replaced by its captured nonempty run of non-`/`
characters, the captures named in order of appearance. -/
theorem path_matching_literal_first_and_template_params :
    (∀ tpl, matchesPath tpl tpl = (true, [])) ∧
    matchesPath "/api/users/{id}" "/api/users/123" = (true, [("id", "123")]) ∧
    matchesPath "/api/users/{id}" "/api/users/123/extra" = (false, []) ∧
    (∀ tpl rp caps, plainTemplate tpl → '\n' ∉ rp.data →
       extractPathParams tpl rp = some caps →
       capsSpec (tokenize tpl) rp.data caps) := by
  refine ⟨?_, by decide, by decide, ?_⟩
  · intro tpl
    simp [matchesPath]
  · intro tpl rp caps _ _ h
    exact pmStep_sound _ (.run (tokenize tpl) rp.data) caps h

/-- Witness for `path_matching_literal_first_and_template_params`: the
soundness statement at the `/api/users/{id}` example, whose template is in
the `plainTemplate` fragment and whose path has no newline. -/
theorem path_matching_template_params_witness :
    plainTemplate "/api/users/{id}" ∧
    '\n' ∉ ("/api/users/123".data) ∧
    capsSpec (tokenize "/api/users/{id}") ("/api/users/123".data)
      [("id", "123")] :=
  ⟨⟨by decide, by decide⟩, by decide,
   path_matching_literal_first_and_template_params.2.2.2 "/api/users/{id}"
     "/api/users/123" [("id", "123")] ⟨by decide, by decide⟩ (by decide)
     (by decide)⟩

/-- C7 counterexample: in passthrough mode with `upstream_url` absent,
handling the request does not return an HTTP 500 JSON response — it raises
`ValueError` (and contacts no upstream), contradicting the claim for the
passthrough half. -/
theorem passthrough_missing_upstream_raises_value_error :
    handleProxyRequest exMockPassNoUp exFallback (.ok 200 [] "") =
      (.error (.valueError "Upstream URL not configured for passthrough mode"),
       false) := by
  rfl

/-- C7 amended: with `upstream_url` absent, proxy mode returns an HTTP 500
response with a JSON error body without contacting the upstream, while
passthrough mode raises `ValueError` (also without contacting the upstream)
instead of returning a 500 JSON response itself. -/
theorem missing_upstream_proxy_500_passthrough_raises :
    (∀ (mock_def : MockDefinition) (fb : Response) (o : UpstreamOutcome),
       mock_def.mock_mode = "proxy" → mock_def.upstream_url = none →
       handleProxyRequest mock_def fb o =
         (.ok { content := "\x7b\"error\": \"Upstream URL not configured\"\x7d",
                status_code := 500, headers := [],
                media_type := some "application/json" }, false)) ∧
    (∀ (mock_def : MockDefinition) (fb : Response) (o : UpstreamOutcome),
       mock_def.mock_mode = "passthrough" → mock_def.upstream_url = none →
       handleProxyRequest mock_def fb o =
         (.error (.valueError "Upstream URL not configured for passthrough mode"),
          false)) := by
  constructor
  · intro mock_def fb o hm hu
    simp [handleProxyRequest, hm, hu, pureProxy]
  · intro mock_def fb o hm hu
    simp [handleProxyRequest, hm, hu, passthrough]

/-- Witness for `missing_upstream_proxy_500_passthrough_raises`: the
proxy-mode statement at a concrete upstream-less proxy mock. -/
theorem missing_upstream_proxy_500_witness :
    handleProxyRequest exMockProxyNoUp exFallback (.ok 200 [] "") =
      (.ok { content := "\x7b\"error\": \"Upstream URL not configured\"\x7d",
             status_code := 500, headers := [],
             media_type := some "application/json" }, false) :=
  missing_upstream_proxy_500_passthrough_raises.1 exMockProxyNoUp exFallback
    (.ok 200 [] "") (by decide) (by decide)

/-- C8: the transport builder passes `session_id` and `client_ip` to the
`RequestContext` constructor and the downstream stages read them, but the
`RequestContext` dataclass in the entity file declares neither field — the
constructor call raises `TypeError` and the attribute reads raise
`AttributeError`, so the code cannot provide the claimed snapshot fields. -/
theorem request_context_entity_lacks_session_fields :
    "session_id" ∈ buildRequestContextKwargs ∧
    "client_ip" ∈ buildRequestContextKwargs ∧
    "client_ip" ∈ downstreamContextReads ∧
    "session_id" ∈ downstreamContextReads ∧
    "session_id" ∉ requestContextEntityFields ∧
    "client_ip" ∉ requestContextEntityFields := by
  decide

/-- C9: header constraints never exclude a definition from candidacy — any
enabled definition whose method and path match the request is in the
candidate list, whatever its `match_headers`; concretely, a definition whose
header constraint the request does not satisfy is still selected when it is
the only surviving candidate. -/
theorem unsatisfied_headers_do_not_exclude_candidates :
    (∀ req mocks mock, mock ∈ mocks → mock.is_active = true →
       matchesMethod mock.mock_match.match_method req.request_method = true →
       (matchesPath mock.get_match_path req.request_path).1 = true →
       (mock, (matchesPath mock.get_match_path req.request_path).2,
         score_match mock req
           (matchesPath mock.get_match_path req.request_path).2)
         ∈ survivors req mocks) ∧
    find_match exReqPlain [exMockHdr] = some (exMockHdr, []) := by
  refine ⟨?_, by decide⟩
  intro req mocks mock hmem hact hmeth hpath
  apply List.mem_filterMap.mpr
  refine ⟨mock, hmem, ?_⟩
  unfold candidateOf
  rw [hact, hmeth]
  simp [hpath]

/-- Witness for `unsatisfied_headers_do_not_exclude_candidates`: candidacy of
the header-constrained mock against the headerless request. -/
theorem unsatisfied_headers_candidate_witness :
    (exMockHdr, (matchesPath exMockHdr.get_match_path
        exReqPlain.request_path).2,
      score_match exMockHdr exReqPlain
        (matchesPath exMockHdr.get_match_path exReqPlain.request_path).2)
      ∈ survivors exReqPlain [exMockHdr] :=
  unsatisfied_headers_do_not_exclude_candidates.1 exReqPlain [exMockHdr]
    exMockHdr (by decide) (by decide) (by decide) (by decide)

/-- C10: on ties `find_match` returns the candidate appearing earliest in the
input order — the returned candidate occurs in the candidate list with every
earlier candidate scoring strictly less (and every candidate scoring at
most it); concretely, of two identically-configured definitions the first one
in the list is returned. -/
theorem tie_goes_to_earliest_candidate :
    (∀ req mocks m p, find_match req mocks = some (m, p) →
       ∃ l₁ l₂ s, survivors req mocks = l₁ ++ (m, p, s) :: l₂ ∧
         (∀ c ∈ l₁, c.2.2 < s) ∧ ∀ c ∈ survivors req mocks, c.2.2 ≤ s) ∧
    find_match exReqPlain [exMockTieA, exMockTieB] = some (exMockTieA, []) := by
  refine ⟨?_, by decide⟩
  intro req mocks m p h
  unfold find_match at h
  cases e : pyMax (fun c => c.2.2) (survivors req mocks) with
  | none => rw [e] at h; exact Option.noConfusion h
  | some c =>
    rw [e] at h
    have h' : (c.1, c.2.1) = (m, p) := Option.some.inj h
    obtain ⟨l₁, l₂, hl, hlt, hle⟩ := pyMax_spec (fun c => c.2.2) _ c e
    have hc : (m, p, c.2.2) = c := by
      have h1 : c.1 = m := congrArg Prod.fst h'
      have h2 : c.2.1 = p := congrArg Prod.snd h'
      cases c with
      | mk c1 c2 =>
        cases c2 with
        | mk c21 c22 => simp_all
    exact ⟨l₁, l₂, c.2.2, by rw [hc]; exact hl, hlt, hle⟩

/-- Witness for `tie_goes_to_earliest_candidate`: the decomposition at the
two-identical-mocks tie. -/
theorem tie_goes_to_earliest_candidate_witness :
    ∃ l₁ l₂ s, survivors exReqPlain [exMockTieA, exMockTieB] =
        l₁ ++ (exMockTieA, ([] : List (String × String)), s) :: l₂ ∧
      (∀ c ∈ l₁, c.2.2 < s) ∧
      ∀ c ∈ survivors exReqPlain [exMockTieA, exMockTieB], c.2.2 ≤ s :=
  tie_goes_to_earliest_candidate.1 exReqPlain [exMockTieA, exMockTieB]
    exMockTieA [] (by decide)
